import Mathlib

/-!
Formal model of the Tempestra frontend (a Leaflet map UI that queries a
NASA-POWER-based climatological probability API) together with the
spec-level Wilson confidence interval of the statistical core.

The JavaScript sources embedded here are `NASA/frontend/app.js` (minimal
frontend) and the unnamed main frontend script (map, location search,
persona cards, run-button handler, insights, charts).  JavaScript numbers
are modelled as exact rationals, DOM string values as `String`, absent
JSON fields as `Option`, and the nondeterministic `fetch` as an explicit
oracle `Request → FetchResult`.
-/

namespace Tempestra

/-! ### String helpers modelling JavaScript string operations -/

/-- Whether the first list is an initial segment of the second
(helper for modelling JavaScript `String.prototype.indexOf`). -/
def startsList : List Char → List Char → Bool
  | [], _ => true
  | _ :: _, [] => false
  | a :: as, b :: bs => a == b && startsList as bs

/-- Index of the first occurrence of `needle` in `haystack`
(JavaScript `haystack.indexOf(needle)`, `none` for `-1`). -/
def idxOfSub (needle : List Char) : List Char → Option Nat
  | [] => if needle.isEmpty then some 0 else none
  | c :: rest =>
    if startsList needle (c :: rest) then some 0
    else (idxOfSub needle rest).map (· + 1)

/-- JavaScript `haystack.includes(needle)`. -/
def includesStr (haystack needle : String) : Bool :=
  (idxOfSub needle.toList haystack.toList).isSome

/-- JavaScript `Array.prototype.join(', ')`. -/
def joinComma : List String → String
  | [] => ""
  | [s] => s
  | s :: rest => s ++ ", " ++ joinComma rest

/-- JavaScript `x.toFixed(d)` read back as a number (`parseFloat` of the
rounded decimal string): round to `d` decimal places.  ECMAScript `toFixed`
picks, among the two nearest `d`-digit decimals, the numerically larger one
on ties, which is exactly `⌊x·10^d + 1/2⌋ / 10^d`. -/
def toFixedQ (d : ℕ) (x : ℚ) : ℚ :=
  ((round (x * 10 ^ d) : ℤ) : ℚ) / 10 ^ d

/-- `fmtPct` from both frontend scripts: `(x * 100).toFixed(1) + '%'`,
modelled as the displayed numeric percentage value. -/
def fmtPct (x : ℚ) : ℚ :=
  toFixedQ 1 (x * 100)

/-! ### Comparison values (`<select id="comparison">`: `gt` | `lt`) -/

/-- The two comparison directions offered by the UI. -/
inductive Comparison
  | gt
  | lt
deriving DecidableEq, Repr

/-! ### Risk colours and insights (source: `getRiskColor`, `updateInsights`,
`getRecommendation`) -/

/-- `getRiskColor(probability, comparison)` from the main script: for
`lt` ("below threshold") conditions probability is inverted, then the
effective probability is bucketed at 0.3 and 0.7 into green, yellow, red. -/
def getRiskColor (probability : ℚ) (comparison : Comparison) : String :=
  let isBelowThreshold := comparison = Comparison.lt
  let effectiveProbability := if isBelowThreshold then 1 - probability else probability
  if effectiveProbability < (0.3 : ℚ) then "#10b981"
  else if effectiveProbability < (0.7 : ℚ) then "#f59e0b"
  else "#ef4444"

/-- `getRecommendation(riskLevel, persona, isBelowThreshold)`: the nested
recommendation lookup table, with the JavaScript optional-chaining fallback
string for an unknown or absent persona. -/
def getRecommendation (riskLevel : String) (persona : Option String)
    (isBelowThreshold : Bool) : String :=
  match persona with
  | some "farmer" =>
    if riskLevel = "low" then
      "Excellent conditions for outdoor farming activities. Consider planting or harvesting."
    else if riskLevel = "medium" then
      "Moderate conditions. Monitor weather closely and have backup plans."
    else if riskLevel = "high" then
      "Challenging conditions expected. Consider indoor activities or delay outdoor work."
    else "Based on historical data, conditions look favorable."
  | some "fisher" =>
    if riskLevel = "low" then
      (if isBelowThreshold then
        "Perfect fishing conditions! Safe winds and good visibility."
      else
        "Risky fishing conditions. Consider staying ashore or fishing in protected areas.")
    else if riskLevel = "medium" then
      (if isBelowThreshold then
        "Decent fishing conditions. Check local weather updates before heading out."
      else
        "Moderate fishing conditions. Exercise caution and monitor conditions.")
    else if riskLevel = "high" then
      (if isBelowThreshold then
        "Risky fishing conditions. Consider staying ashore or fishing in protected areas."
      else
        "Perfect fishing conditions! Safe winds and good visibility.")
    else "Based on historical data, conditions look favorable."
  | some "tourist" =>
    if riskLevel = "low" then
      "Ideal weather for outdoor activities and sightseeing."
    else if riskLevel = "medium" then
      "Good conditions with some variability. Pack layers and check forecasts."
    else if riskLevel = "high" then
      "Challenging weather expected. Consider indoor attractions or reschedule."
    else "Based on historical data, conditions look favorable."
  | some "driver" =>
    if riskLevel = "low" then
      "Excellent driving conditions with good visibility and road safety."
    else if riskLevel = "medium" then
      "Fair driving conditions. Exercise caution and check road reports."
    else if riskLevel = "high" then
      "Difficult driving conditions expected. Consider delaying travel if possible."
    else "Based on historical data, conditions look favorable."
  | _ => "Based on historical data, conditions look favorable."

/-- The risk panel written by `updateInsights`: level text, bar width,
CSS class of the fill bar and the recommendation text. -/
structure InsightsView where
  riskLevel : String
  riskWidth : String
  riskClassName : String
  recommendation : String
deriving DecidableEq, Repr

/-- `updateInsights(data, persona)` from the main script, as a function of
`data.probability`, the comparison select value and the selected persona:
buckets the effective probability at 0.3 and 0.7 into Low, Medium, High. -/
def updateInsights (probability : ℚ) (comparison : Comparison)
    (persona : Option String) : InsightsView :=
  let isBelowThreshold := comparison = Comparison.lt
  let effectiveProbability := if isBelowThreshold then 1 - probability else probability
  if effectiveProbability < (0.3 : ℚ) then
    { riskLevel := "Low", riskWidth := "20%", riskClassName := "",
      recommendation := getRecommendation "low" persona isBelowThreshold }
  else if effectiveProbability < (0.7 : ℚ) then
    { riskLevel := "Medium", riskWidth := "60%", riskClassName := "medium",
      recommendation := getRecommendation "medium" persona isBelowThreshold }
  else
    { riskLevel := "High", riskWidth := "90%", riskClassName := "high",
      recommendation := getRecommendation "high" persona isBelowThreshold }

/-! ### Persona cards (source: `updateFormForPersona`, `resetFormToDefault`,
persona-card click handler) -/

/-- The three form fields a persona preset writes. -/
structure FormState where
  varKey : String
  threshold : String
  comparison : String
deriving DecidableEq, Repr

/-- `resetFormToDefault()`: the default form values. -/
def resetFormToDefault : FormState :=
  { varKey := "T2M_MAX", threshold := "32", comparison := "gt" }

/-- `updateFormForPersona(persona)`: the switch mapping each persona to its
fixed (variable, threshold, comparison) preset; unknown personas fall
through the switch and leave the form unchanged. -/
def updateFormForPersona (persona : String) (form : FormState) : FormState :=
  if persona = "farmer" then
    { varKey := "PRECTOTCORR", threshold := "5", comparison := "gt" }
  else if persona = "fisher" then
    { varKey := "WS10M", threshold := "15", comparison := "lt" }
  else if persona = "tourist" then
    { varKey := "T2M_MAX", threshold := "25", comparison := "gt" }
  else if persona = "driver" then
    { varKey := "PRECTOTCORR", threshold := "1", comparison := "lt" }
  else form

/-- The persona-card click handler: clicking the active card deselects it
and resets the form; clicking another card selects it and applies its
preset.  Returns the new `selectedPersona` and form. -/
def personaCardClick (selectedPersona : Option String) (clicked : String)
    (form : FormState) : Option String × FormState :=
  if selectedPersona = some clicked then (none, resetFormToDefault)
  else (some clicked, updateFormForPersona clicked form)

/-! ### Coordinate parsing (source: the `location-input` input handler's
regular expression `^(-?\d+\.?\d*),\s*(-?\d+\.?\d*)$` plus `parseFloat`) -/

/-- Split a leading run of decimal digits from a character list
(the `\d+` / `\d*` pieces of the coordinate pattern). -/
def takeDigits : List Char → List Char × List Char
  | [] => ([], [])
  | c :: rest =>
    if c.isDigit then
      let (ds, r) := takeDigits rest
      (c :: ds, r)
    else ([], c :: rest)

/-- Numeric value of a digit string. -/
def digitsToNat (ds : List Char) : ℕ :=
  ds.foldl (fun acc c => acc * 10 + (c.toNat - 48)) 0

/-- Parse one `-?\d+\.?\d*` group and return its `parseFloat` value and the
unconsumed characters; fails when no digit is present. -/
def parseSignedDecimal (cs : List Char) : Option (ℚ × List Char) :=
  let (neg, cs1) : Bool × List Char :=
    match cs with
    | '-' :: t => (true, t)
    | _ => (false, cs)
  let (ds, cs2) := takeDigits cs1
  if ds.isEmpty then none
  else
    let (fds, cs3) : List Char × List Char :=
      match cs2 with
      | '.' :: t => takeDigits t
      | _ => ([], cs2)
    let mag : ℚ := (digitsToNat ds : ℚ) + (digitsToNat fds : ℚ) / 10 ^ fds.length
    some (if neg then -mag else mag, cs3)

/-- `input.match(/^(-?\d+\.?\d*),\s*(-?\d+\.?\d*)$/)` with both groups fed
through `parseFloat`: the whole string must be two decimal numbers
separated by a comma and optional whitespace. -/
def coordMatch (input : String) : Option (ℚ × ℚ) :=
  match parseSignedDecimal input.toList with
  | none => none
  | some (lat, rest1) =>
    match rest1 with
    | ',' :: t =>
      match parseSignedDecimal (t.dropWhile fun c => c.isWhitespace) with
      | none => none
      | some (lng, rest2) => if rest2.isEmpty then some (lat, lng) else none
    | _ => none

/-- JavaScript `String.prototype.trim()` over the character list: drop
whitespace from both ends. -/
def trimChars (cs : List Char) : List Char :=
  ((cs.dropWhile Char.isWhitespace).reverse.dropWhile Char.isWhitespace).reverse

/-- JavaScript `value.trim()`. -/
def jsTrim (s : String) : String :=
  (trimChars s.toList).asString

/-- Observable effects of one firing of the `location-input` input handler. -/
structure LocationInputResult where
  markerPlaced : Option (ℚ × ℚ)
  mapMovedTo : Option ((ℚ × ℚ) × ℕ)
  suggestionsHidden : Bool
  searchScheduled : Option String
deriving DecidableEq, Repr

/-- The `location-input` input handler: trim the value; if it matches the
coordinate pattern, place a marker and move the map only when the
coordinates are in range (out-of-range coordinates do nothing); otherwise
schedule a city search for inputs of length at least 2 and hide the
suggestions for shorter inputs. -/
def locationInputHandler (rawValue : String) : LocationInputResult :=
  let input := jsTrim rawValue
  match coordMatch input with
  | some (lat, lng) =>
    if -90 ≤ lat ∧ lat ≤ 90 ∧ -180 ≤ lng ∧ lng ≤ 180 then
      { markerPlaced := some (lat, lng), mapMovedTo := some ((lat, lng), 10),
        suggestionsHidden := true, searchScheduled := none }
    else
      { markerPlaced := none, mapMovedTo := none,
        suggestionsHidden := false, searchScheduled := none }
  | none =>
    if 2 ≤ input.length then
      { markerPlaced := none, mapMovedTo := none,
        suggestionsHidden := false, searchScheduled := some input }
    else
      { markerPlaced := none, mapMovedTo := none,
        suggestionsHidden := true, searchScheduled := none }

/-! ### City suggestions (source: `cities`, `showSuggestions`, `selectCity`) -/

/-- One entry of the static `cities` array. -/
structure City where
  name : String
  country : String
  lat : ℚ
  lng : ℚ
deriving DecidableEq, Repr

/-- The static city list of the main script (name, country, coordinates). -/
def cities : List City := [
  ⟨"Cairo", "Egypt", 30.0444, 31.2357⟩,
  ⟨"London", "United Kingdom", 51.5074, -0.1278⟩,
  ⟨"New York", "United States", 40.7128, -74.0060⟩,
  ⟨"Paris", "France", 48.8566, 2.3522⟩,
  ⟨"Tokyo", "Japan", 35.6762, 139.6503⟩,
  ⟨"Sydney", "Australia", -33.8688, 151.2093⟩,
  ⟨"Dubai", "UAE", 25.2048, 55.2708⟩,
  ⟨"Mumbai", "India", 19.0760, 72.8777⟩,
  ⟨"Beijing", "China", 39.9042, 116.4074⟩,
  ⟨"Moscow", "Russia", 55.7558, 37.6176⟩,
  ⟨"Berlin", "Germany", 52.5200, 13.4050⟩,
  ⟨"Rome", "Italy", 41.9028, 12.4964⟩,
  ⟨"Madrid", "Spain", 40.4168, -3.7038⟩,
  ⟨"Amsterdam", "Netherlands", 52.3676, 4.9041⟩,
  ⟨"Barcelona", "Spain", 41.3851, 2.1734⟩,
  ⟨"Istanbul", "Turkey", 41.0082, 28.9784⟩,
  ⟨"Athens", "Greece", 37.9838, 23.7275⟩,
  ⟨"Prague", "Czech Republic", 50.0755, 14.4378⟩,
  ⟨"Vienna", "Austria", 48.2082, 16.3738⟩,
  ⟨"Stockholm", "Sweden", 59.3293, 18.0686⟩,
  ⟨"Springfield", "United States (Illinois)", 39.7817, -89.6501⟩,
  ⟨"Springfield", "United States (Missouri)", 37.2089, -93.2923⟩,
  ⟨"Birmingham", "United Kingdom", 52.4862, -1.8904⟩,
  ⟨"Birmingham", "United States", 33.5207, -86.8025⟩,
  ⟨"Manchester", "United Kingdom", 53.4808, -2.2426⟩,
  ⟨"Manchester", "United States", 42.9956, -71.4548⟩,
  ⟨"Newport", "United Kingdom", 51.5889, -2.9979⟩,
  ⟨"Newport", "United States (Rhode Island)", 41.4901, -71.3128⟩,
  ⟨"Newport", "United States (Kentucky)", 39.0914, -84.4958⟩,
  ⟨"Richmond", "United States (Virginia)", 37.5407, -77.4360⟩,
  ⟨"Richmond", "United States (California)", 37.9358, -122.3478⟩,
  ⟨"Richmond", "Australia", -37.8136, 144.9631⟩,
  ⟨"Frankfurt", "Germany", 50.1109, 8.6821⟩,
  ⟨"Frankfurt", "United States", 38.2009, -84.8733⟩,
  ⟨"Victoria", "Canada", 48.4284, -123.3656⟩,
  ⟨"Victoria", "Australia", -37.8136, 144.9631⟩,
  ⟨"Victoria", "Seychelles", -4.6191, 55.4513⟩,
  ⟨"Hamilton", "Canada", 43.2557, -79.8711⟩,
  ⟨"Hamilton", "New Zealand", -37.7870, 175.2793⟩,
  ⟨"Hamilton", "Bermuda", 32.2948, -64.7814⟩,
  ⟨"Washington", "United States", 38.9072, -77.0369⟩,
  ⟨"Washington", "United States (State)", 47.7511, -120.7401⟩,
  ⟨"Luxor", "Egypt", 25.6872, 32.6396⟩,
  ⟨"Alexandria", "Egypt", 31.2001, 29.9187⟩,
  ⟨"Giza", "Egypt", 30.0131, 31.2089⟩,
  ⟨"Aswan", "Egypt", 24.0889, 32.8998⟩,
  ⟨"Hurghada", "Egypt", 27.2574, 33.8129⟩,
  ⟨"Sharm El Sheikh", "Egypt", 27.9158, 34.3300⟩]

/-- The highlighted display name of one suggestion: when the lowercased
city name contains the lowercased input, wrap the matching slice of the
original name in a `<mark>` element. -/
def highlightName (rawInput : String) (city : City) : String :=
  let inputValue := rawInput.toLower
  let cityName := city.name.toLower
  match idxOfSub inputValue.toList cityName.toList with
  | some i =>
    let n := inputValue.length
    let chars := city.name.toList
    (chars.take i).asString ++ "<mark>" ++ ((chars.drop i).take n).asString
      ++ "</mark>" ++ (chars.drop (i + n)).asString
  | none => city.name

/-- One rendered suggestion `div`: highlighted name, country, displayed
coordinates (`toFixed(2)`) and the city passed to the click handler. -/
structure SuggestionEntry where
  displayName : String
  displayCountry : String
  coordsLat : ℚ
  coordsLng : ℚ
  clickTarget : City
deriving DecidableEq, Repr

/-- The suggestions container after one call of `showSuggestions`. -/
structure SuggestionsView where
  entries : List SuggestionEntry
  visible : Bool
deriving DecidableEq, Repr

/-- Render one suggestion entry for `showSuggestions`. -/
def renderSuggestion (rawInput : String) (city : City) : SuggestionEntry :=
  { displayName := highlightName rawInput city
    displayCountry := city.country
    coordsLat := toFixedQ 2 city.lat
    coordsLng := toFixedQ 2 city.lng
    clickTarget := city }

/-- `showSuggestions(suggestions)`: an empty list clears and hides the
container; otherwise the first 8 suggestions (`suggestions.slice(0, 8)`)
are rendered and the container is shown. -/
def showSuggestions (rawInput : String) (suggestions : List City) : SuggestionsView :=
  if suggestions.length = 0 then
    { entries := [], visible := false }
  else
    { entries := (suggestions.take 8).map (renderSuggestion rawInput), visible := true }

/-! ### Map selection state machine (source: the module-level mutable
variables `marker`, `selectedArea`, `isSelectingArea`, `selectionRectangle`,
`areaSelectionMode`, `selectionMode`, `startLatLng` and the handlers that
mutate them: `addMarker`, `clearAreaSelection`, the selection-mode-btn
click handler, the map click handler, the location-input coordinate
branch, `selectCity`, and the mousedown/mousemove/mouseup/mouseleave
handlers of the map container). -/

/-- A `L.latLngBounds` rectangle, stored by its two defining corners. -/
structure Rect where
  corner1 : ℚ × ℚ
  corner2 : ℚ × ℚ
deriving DecidableEq, Repr

/-- South-west corner of a rectangle (componentwise minimum). -/
def Rect.sw (r : Rect) : ℚ × ℚ :=
  (min r.corner1.1 r.corner2.1, min r.corner1.2 r.corner2.2)

/-- North-east corner of a rectangle (componentwise maximum). -/
def Rect.ne (r : Rect) : ℚ × ℚ :=
  (max r.corner1.1 r.corner2.1, max r.corner1.2 r.corner2.2)

/-- `bounds.getCenter()`. -/
def Rect.center (r : Rect) : ℚ × ℚ :=
  (((r.sw).1 + (r.ne).1) / 2, ((r.sw).2 + (r.ne).2) / 2)

/-- The mutable UI selection state of the main script. -/
structure UIState where
  marker : Option (ℚ × ℚ)
  selectedArea : Option Rect
  selectionRectangle : Option Rect
  isSelectingArea : Bool
  areaSelectionMode : Bool
  selectionMode : String
  startLatLng : Option (ℚ × ℚ)
deriving DecidableEq, Repr

/-- The initial state: no marker, no area, point-selection mode. -/
def initState : UIState :=
  { marker := none, selectedArea := none, selectionRectangle := none,
    isSelectingArea := false, areaSelectionMode := false,
    selectionMode := "point", startLatLng := none }

/-- `clearAreaSelection()`: remove the rectangle layer, drop the selected
area and stop any in-progress selection. -/
def clearAreaSelection (s : UIState) : UIState :=
  { s with selectionRectangle := none, selectedArea := none, isSelectingArea := false }

/-- `addMarker(lat, lng)`: replace the marker and clear any area
selection. -/
def addMarker (s : UIState) (lat lng : ℚ) : UIState :=
  clearAreaSelection { s with marker := some (lat, lng) }

/-- User interactions that mutate the selection state.  `mouseDown` carries
whether the event target is the map container and whether it carries one
of the Leaflet tile CSS classes; `mouseMove`/`mouseUp` carry the latlng
under the cursor derived from the pixel position. -/
inductive UIEvent
  | toggleSelectionMode
  | mapClick (lat lng : ℚ)
  | coordInput (lat lng : ℚ)
  | citySelect (c : City)
  | mouseDown (lat lng : ℚ) (targetIsContainer targetHasTileClass : Bool)
  | mouseMove (lat lng : ℚ)
  | mouseUp (lat lng : ℚ)
  | mouseLeave
deriving DecidableEq, Repr

/-- One step of the selection state machine.  `dist` is Leaflet's
`LatLng.distanceTo` (great-circle distance in metres), an external
numeric function the mouseup handler compares against the 100 m minimum
selection size. -/
def step (dist : ℚ × ℚ → ℚ × ℚ → ℚ) (s : UIState) : UIEvent → UIState
  | .toggleSelectionMode =>
    if s.selectionMode = "point" then
      { s with selectionMode := "area", areaSelectionMode := true, marker := none }
    else
      clearAreaSelection { s with selectionMode := "point", areaSelectionMode := false }
  | .mapClick lat lng =>
    if !s.areaSelectionMode then addMarker s lat lng else s
  | .coordInput lat lng =>
    if -90 ≤ lat ∧ lat ≤ 90 ∧ -180 ≤ lng ∧ lng ≤ 180 then addMarker s lat lng else s
  | .citySelect c => addMarker s c.lat c.lng
  | .mouseDown lat lng targetIsContainer targetHasTileClass =>
    if (s.areaSelectionMode && targetIsContainer) || targetHasTileClass then
      { s with
        isSelectingArea := true
        startLatLng := some (lat, lng)
        selectionRectangle := none
        selectedArea := none }
    else s
  | .mouseMove lat lng =>
    match s.startLatLng with
    | some st =>
      if s.areaSelectionMode && s.isSelectingArea then
        { s with selectionRectangle := some ⟨st, (lat, lng)⟩ }
      else s
    | none => s
  | .mouseUp lat lng =>
    match s.startLatLng with
    | some st =>
      if s.areaSelectionMode && s.isSelectingArea then
        let bounds : Rect := ⟨st, (lat, lng)⟩
        if 100 < dist bounds.sw bounds.ne then
          { s with
            selectedArea := s.selectionRectangle
            isSelectingArea := false
            startLatLng := none }
        else
          { s with
            selectionRectangle := none
            isSelectingArea := false
            startLatLng := none }
      else s
    | none => s
  | .mouseLeave =>
    if s.areaSelectionMode && s.isSelectingArea then
      { s with
        isSelectingArea := false
        startLatLng := none
        selectionRectangle :=
          if s.selectedArea = none then none else s.selectionRectangle }
    else s

/-- Run a list of events from the initial state. -/
def runEvents (dist : ℚ × ℚ → ℚ × ℚ → ℚ) (es : List UIEvent) : UIState :=
  es.foldl (step dist) initState

/-- A fixed sample distance function standing for Leaflet's great-circle
metric: the distance used in the concrete traces below, large enough that
a degree-sized rectangle exceeds the 100 m minimum. -/
def distSample (a b : ℚ × ℚ) : ℚ :=
  if a = b then 0 else 156000

/-! ### The probability request and its result (source: the `run` click
handlers of both scripts, `fmtPct`, `getVariableDisplayName`,
`getComparisonSymbol`, `getProbabilityInterpretation`) -/

/-- The query-string parameters of a `/api/probability` request. -/
structure Request where
  lat : ℚ
  lon : ℚ
  varKey : String
  targetDate : String
  threshold : String
  comparison : Comparison
  windowDays : String
deriving DecidableEq, Repr

/-- The JSON body of a successful `/api/probability` response, with the
fields the frontends read.  `source` and `method` are `Option` because the
rendering code guards them against absent values; `ci95` is read only by
the minimal frontend. -/
structure ApiData where
  probability : ℚ
  n_samples : ℕ
  period : String
  ci95 : ℚ × ℚ
  source : Option (List String)
  method : Option String
deriving DecidableEq, Repr

/-- Outcome of `fetch` + `resp.json()`: a parsed success body, a non-OK
HTTP response (carrying the parsed `err.detail`, `none` when absent), or a
thrown network/parse error with its message. -/
inductive FetchResult
  | ok (data : ApiData)
  | httpError (detail : Option String)
  | networkError (message : String)
deriving DecidableEq, Repr

/-- Whether a fetch outcome is a failure (non-OK response or thrown
error). -/
def FetchResult.isFailure : FetchResult → Bool
  | .ok _ => false
  | .httpError _ => true
  | .networkError _ => true

/-- `new Error(err.detail || 'API error').message` for a non-OK response:
an absent or empty `detail` falls back to `"API error"`. -/
def failureMessage : Option String → String
  | some s => if s = "" then "API error" else s
  | none => "API error"

/-- The catch branch of the main script refines the error message by
substring matching on `e.message`. -/
def refineErrorMessage (msg : String) : String :=
  if includesStr msg "422" then
    "Invalid coordinates or parameters. Please check your location and try again."
  else if includesStr msg "404" then
    "Weather data not available for this location. Try a different location."
  else if includesStr msg "500" then
    "Server error. Please try again in a moment."
  else if includesStr msg "timeout" then
    "Request timed out. Please try again."
  else msg

/-- `getVariableDisplayName(varKey)`. -/
def getVariableDisplayName (varKey : String) : String :=
  if varKey = "T2M_MAX" then "Hot Day (Maximum Temperature)"
  else if varKey = "T2M_MIN" then "Cold Day (Minimum Temperature)"
  else if varKey = "WS10M" then "Windy Day (Wind Speed)"
  else if varKey = "PRECTOTCORR" then "Rainy Day (Precipitation)"
  else if varKey = "T2M" then "Average Temperature"
  else varKey

/-- `getComparisonSymbol(comparison)`. -/
def getComparisonSymbol (comparison : Comparison) : String :=
  if comparison = Comparison.gt then ">" else "<"

/-- `getProbabilityInterpretation(probability, varKey, comparison,
threshold)` (the probability argument is unused in the source as well). -/
def getProbabilityInterpretation (_probability : ℚ) (varKey : String)
    (comparison : Comparison) (threshold : String) : String :=
  let varName :=
    if varKey = "T2M_MAX" then "hot weather"
    else if varKey = "T2M_MIN" then "cold weather"
    else if varKey = "WS10M" then "windy conditions"
    else if varKey = "PRECTOTCORR" then "rainy weather"
    else if varKey = "T2M" then "temperature conditions"
    else "weather conditions"
  let comparisonText := if comparison = Comparison.gt then "above" else "below"
  let thresholdText :=
    if varKey = "WS10M" then threshold ++ " km/h"
    else if includesStr varKey "T2M" then threshold ++ "°C"
    else threshold ++ " mm"
  "Chance of " ++ varName ++ " " ++ comparisonText ++ " " ++ thresholdText ++ " on this date"

/-- The location line of the result card: an area shows its centre and the
computed surface (kept symbolic because `calculateArea` is spherical
trigonometry over the bounds), a comma-containing non-empty location input
is echoed, and otherwise the rounded coordinates are shown. -/
inductive DisplayLocation
  | areaCenter (lat lon : ℚ) (bounds : Rect)
  | fromInput (text : String)
  | coords (lat lon : ℚ)
deriving DecidableEq, Repr

/-- The structured content of the main script's success `innerHTML`
(probability card, analysis details, data info). -/
structure ResultView where
  riskColor : String
  probabilityPctShown : ℚ
  probabilityLabel : String
  displayLocation : DisplayLocation
  dateShown : String
  conditionText : String
  nSamplesShown : ℕ
  periodShown : String
  sourceText : String
  methodText : String
deriving DecidableEq, Repr

/-- What the `output` element holds after the main script's run handler
finishes: an error message (`result error`) or the rendered result card
(`result has-data`). -/
inductive RunOutput
  | errorMessage (message : String)
  | success (view : ResultView)
deriving DecidableEq, Repr

/-- The form and selection state the main script's run handler reads. -/
structure RunInputs where
  marker : Option (ℚ × ℚ)
  selectedArea : Option Rect
  locationInput : String
  varKey : String
  date : String
  threshold : String
  comparison : Comparison
  windowDays : String
deriving DecidableEq, Repr

/-- The `if (marker) … else if (selectedArea) …` coordinate choice: the
marker's position, else the area's centre, else nothing; tags the
`locationType`. -/
def selectedCoords (marker : Option (ℚ × ℚ)) (area : Option Rect) :
    Option (ℚ × ℚ × String) :=
  match marker with
  | some (la, ln) => some (la, ln, "point")
  | none =>
    match area with
    | some r => some (r.center.1, r.center.2, "area")
    | none => none

/-- Error message of the main script when no location is selected. -/
def noLocationMsg : String :=
  "Please select a location first. You can type coordinates (e.g., 30.0444, 31.2357), click on the map for point selection, or use the Area Selection button for drag selection."

/-- Error message for an out-of-range latitude. -/
def invalidLatMsg : String :=
  "Invalid latitude. Please select a location between -90° and 90°."

/-- Error message for an out-of-range longitude. -/
def invalidLonMsg : String :=
  "Invalid longitude. Please select a location between -180° and 180°."

/-- Error message for a missing date. -/
def noDateMsg : String := "Please select a target date."

/-- Error message for a missing threshold. -/
def noThresholdMsg : String := "Please enter a threshold value."

/-- The frontend default data-source line used when `data.source` is
absent. -/
def defaultSourceText : String := "NASA POWER (MERRA-2 derived)"

/-- The frontend default method line used when `data.method` is absent or
empty. -/
def defaultMethodText : String := "DOY ±15d; binomial proportion (Wilson CI)"

/-- The success-branch rendering of the main script's run handler:
`out.innerHTML` built from the response body and the form state.  `lat`
and `lon` are the already-rounded submitted coordinates. -/
def renderResult (s : RunInputs) (locationType : String) (lat lon : ℚ)
    (data : ApiData) : ResultView :=
  { riskColor := getRiskColor data.probability s.comparison
    probabilityPctShown := fmtPct data.probability
    probabilityLabel :=
      getProbabilityInterpretation data.probability s.varKey s.comparison s.threshold
    displayLocation :=
      match locationType, s.selectedArea with
      | "area", some r => .areaCenter lat lon r
      | _, _ =>
        if s.locationInput ≠ "" ∧ includesStr s.locationInput "," then
          .fromInput s.locationInput
        else .coords lat lon
    dateShown := s.date
    conditionText :=
      getVariableDisplayName s.varKey ++ " " ++ getComparisonSymbol s.comparison
        ++ " " ++ s.threshold
    nSamplesShown := data.n_samples
    periodShown := data.period
    sourceText :=
      match data.source with
      | some l => joinComma l
      | none => defaultSourceText
    methodText :=
      match data.method with
      | some m => if m = "" then defaultMethodText else m
      | none => defaultMethodText }

/-- The try/catch tail of the main script's run handler: how the issued
request's outcome is rendered — the success branch builds the result card,
the catch branch shows `'Error: ' + errorMessage` after refinement. -/
def respondToFetch (s : RunInputs) (locationType : String) (lat lon : ℚ)
    (req : Request) (res : FetchResult) : RunOutput × Option Request :=
  match res with
  | .ok data => (.success (renderResult s locationType lat lon data), some req)
  | .httpError detail =>
    (.errorMessage ("Error: " ++ refineErrorMessage (failureMessage detail)), some req)
  | .networkError msg =>
    (.errorMessage ("Error: " ++ refineErrorMessage msg), some req)

/-- The main script's run-button click handler, as a function of the form
state and a fetch oracle.  Returns the final `output` content and the
request that was issued, if any.  Coordinates are sent and validated after
`toFixed(4)` rounding (`parseFloat` of the rounded string). -/
def runClick (s : RunInputs) (fetch : Request → FetchResult) :
    RunOutput × Option Request :=
  match selectedCoords s.marker s.selectedArea with
  | none => (.errorMessage noLocationMsg, none)
  | some (latRaw, lonRaw, locationType) =>
    let lat := toFixedQ 4 latRaw
    let lon := toFixedQ 4 lonRaw
    if lat < -90 ∨ 90 < lat then (.errorMessage invalidLatMsg, none)
    else if lon < -180 ∨ 180 < lon then (.errorMessage invalidLonMsg, none)
    else if s.date = "" then (.errorMessage noDateMsg, none)
    else if s.threshold = "" then (.errorMessage noThresholdMsg, none)
    else
      let req : Request :=
        { lat := lat, lon := lon, varKey := s.varKey, targetDate := s.date,
          threshold := s.threshold, comparison := s.comparison,
          windowDays := s.windowDays }
      respondToFetch s locationType lat lon req (fetch req)

/-! ### The minimal frontend `NASA/frontend/app.js` -/

/-- What `app.js` writes into its `output` element: plain text (prompts
and errors) or the result line with probability, sample count, the two CI
percentages and the method string. -/
inductive AppJsOutput
  | text (message : String)
  | resultHtml (probabilityPct : ℚ) (nSamples : ℕ) (ciLowPct ciHighPct : ℚ)
      (method : String)
deriving DecidableEq, Repr

/-- Template interpolation of `data.method` in `app.js` (an absent field
renders as the string `undefined`). -/
def appJsMethodText : Option String → String
  | some m => m
  | none => "undefined"

/-- The try/catch tail of the `app.js` run handler. -/
def appJsRespond (req : Request) (res : FetchResult) : AppJsOutput × Option Request :=
  match res with
  | .ok data =>
    (.resultHtml (fmtPct data.probability) data.n_samples
      (fmtPct data.ci95.1) (fmtPct data.ci95.2)
      (appJsMethodText data.method), some req)
  | .httpError detail => (.text ("Error: " ++ failureMessage detail), some req)
  | .networkError msg => (.text ("Error: " ++ msg), some req)

/-- The `app.js` run-button click handler: requires a dropped pin and a
date, then fetches and renders; a failure renders `'Error: ' + e.message`
as plain text. -/
def appJsRunClick (marker : Option (ℚ × ℚ)) (varKey date threshold : String)
    (comparison : Comparison) (windowDays : String)
    (fetch : Request → FetchResult) : AppJsOutput × Option Request :=
  match marker with
  | none => (.text "Please drop a pin on the map first.", none)
  | some (la, ln) =>
    let lat := toFixedQ 4 la
    let lon := toFixedQ 4 ln
    if date = "" then (.text "Please select a date.", none)
    else
      let req : Request :=
        { lat := lat, lon := lon, varKey := varKey, targetDate := date,
          threshold := threshold, comparison := comparison,
          windowDays := windowDays }
      appJsRespond req (fetch req)

/-! ### Trend chart data (source: `createTrendChart`) -/

/-- `Math.max(0, Math.min(1, x))`. -/
def clamp01 (x : ℚ) : ℚ := max 0 (min 1 x)

/-- The data fed to the line chart: year labels and percentage values. -/
structure TrendChartData where
  years : List ℕ
  probabilities : List ℚ
deriving DecidableEq, Repr

/-- `createTrendChart`'s data generation: ten mock per-year values around
`data.probability`, each perturbed by that rendering's `Math.random()`
draw (`randoms i` is the draw of loop iteration `i`), clamped to `[0, 1]`
and scaled to percent. -/
def createTrendChartData (probability : ℚ) (randoms : ℕ → ℚ) : TrendChartData :=
  { years := (List.range 10).map (fun i => 2015 + i)
    probabilities := (List.range 10).map
      (fun i => clamp01 (probability + (randoms i - 0.5) * 0.3) * 100) }

/-! ### Wilson score interval (statistical core) -/

/-- Modelled from the spec: the 95% confidence z value of the Exceedance
Probability Estimator (the estimator's code is not part of the frontend
sources; the spec fixes `z = 1.95996`). -/
def z95 : ℚ := 1.95996

/-- Modelled from the spec: the centre of the Wilson score interval,
`(p̂ + z²/(2n)) / (1 + z²/n)` with `p̂ = k/n`. -/
noncomputable def wilsonCenter (n k : ℕ) : ℝ :=
  ((k : ℝ) / n + (z95 : ℝ) ^ 2 / (2 * n)) / (1 + (z95 : ℝ) ^ 2 / n)

/-- Modelled from the spec: the half width of the Wilson score interval,
`z·√(p̂(1-p̂)/n + z²/(4n²)) / (1 + z²/n)`. -/
noncomputable def wilsonHalfWidth (n k : ℕ) : ℝ :=
  (z95 : ℝ) * Real.sqrt ((k : ℝ) / n * (1 - (k : ℝ) / n) / n
    + (z95 : ℝ) ^ 2 / (4 * n ^ 2)) / (1 + (z95 : ℝ) ^ 2 / n)

/-- `clamp(x, 0, 1)` over the reals. -/
noncomputable def clamp01R (x : ℝ) : ℝ := max 0 (min 1 x)

/-- The probability-view fields the Wilson computation fills. -/
structure WilsonResult where
  point_estimate : ℝ
  ci_low : ℝ
  ci_high : ℝ

/-- Modelled from the spec: the Exceedance Probability Estimator's point
estimate and clamped Wilson interval for `k` of `n` pooled samples
satisfying the comparison. -/
noncomputable def wilson (n k : ℕ) : WilsonResult :=
  { point_estimate := (k : ℝ) / n
    ci_low := clamp01R (wilsonCenter n k - wilsonHalfWidth n k)
    ci_high := clamp01R (wilsonCenter n k + wilsonHalfWidth n k) }

/-! ### Sample fixtures for concrete instantiations -/

/-- A sample form and selection state: marker on Cairo-like coordinates,
all fields filled. -/
def demoInputs : RunInputs :=
  { marker := some (30, 31), selectedArea := none, locationInput := "",
    varKey := "T2M_MAX", date := "2025-01-01", threshold := "32",
    comparison := Comparison.gt, windowDays := "15" }

/-- A sample successful response body. -/
def demoData : ApiData :=
  { probability := 1/2, n_samples := 310, period := "1981-2024",
    ci95 := (45/100, 55/100), source := some ["NASA POWER (MERRA-2 derived)"],
    method := some "DOY ±15d; binomial proportion (Wilson 95% CI)" }

/-! ## Theorems for the claims -/

/-- C8: for every probability `p ∈ [0,1]` and comparison in `{gt, lt}`,
the chart colour of `getRiskColor` and the risk level of `updateInsights`
agree on the same boundaries of the effective probability (`1-p` for `lt`,
`p` for `gt`): green exactly when Low (< 0.3), yellow exactly when Medium
(< 0.7), red exactly when High (≥ 0.7). -/
theorem C8_risk_color_matches_risk_level (p : ℚ) (c : Comparison)
    (persona : Option String) (_hp0 : 0 ≤ p) (_hp1 : p ≤ 1) :
    (getRiskColor p c = "#10b981" ↔ (updateInsights p c persona).riskLevel = "Low") ∧
    (getRiskColor p c = "#f59e0b" ↔ (updateInsights p c persona).riskLevel = "Medium") ∧
    (getRiskColor p c = "#ef4444" ↔ (updateInsights p c persona).riskLevel = "High") := by
  simp only [getRiskColor, updateInsights]
  split_ifs <;> simp_all

/-- Witness for C8 at `p = 1/2`, `comparison = gt`: the hypotheses hold
and yellow coincides with Medium. -/
theorem C8_witness :
    ((0 : ℚ) ≤ 1/2 ∧ (1/2 : ℚ) ≤ 1) ∧
    (getRiskColor (1/2) Comparison.gt = "#f59e0b" ↔
      (updateInsights (1/2) Comparison.gt none).riskLevel = "Medium") :=
  ⟨⟨by norm_num, by norm_num⟩,
    (C8_risk_color_matches_risk_level (1/2) Comparison.gt none
      (by norm_num) (by norm_num)).2.1⟩

/-- C7 counterexample: `tourist` is a persona the form handler maps to a
preset — the persona set is not `farmer|fisher|general` — while `general`
is not a recognised persona at all (the switch leaves the form
unchanged). -/
theorem C7_counterexample :
    (personaCardClick none "tourist" resetFormToDefault).2 =
      { varKey := "T2M_MAX", threshold := "25", comparison := "gt" } ∧
    (personaCardClick none "tourist" resetFormToDefault).2 ≠ resetFormToDefault ∧
    updateFormForPersona "general" resetFormToDefault = resetFormToDefault ∧
    updateFormForPersona "driver" resetFormToDefault ≠ resetFormToDefault := by
  decide

/-- C7 (amended): the persona cards range over the enumerated set
`farmer|fisher|tourist|driver`; every selected persona maps to a fixed
(variable-preset, threshold-preset, comparison) request shape independent
of the previous form state, and any string outside that set leaves the
form unchanged. -/
theorem C7_personas_map_to_fixed_presets (form : FormState) :
    updateFormForPersona "farmer" form =
      { varKey := "PRECTOTCORR", threshold := "5", comparison := "gt" } ∧
    updateFormForPersona "fisher" form =
      { varKey := "WS10M", threshold := "15", comparison := "lt" } ∧
    updateFormForPersona "tourist" form =
      { varKey := "T2M_MAX", threshold := "25", comparison := "gt" } ∧
    updateFormForPersona "driver" form =
      { varKey := "PRECTOTCORR", threshold := "1", comparison := "lt" } ∧
    (∀ persona : String,
      persona ∉ (["farmer", "fisher", "tourist", "driver"] : List String) →
      updateFormForPersona persona form = form) := by
  refine ⟨by simp [updateFormForPersona], by simp [updateFormForPersona],
    by simp [updateFormForPersona], by simp [updateFormForPersona], ?_⟩
  intro persona h
  simp only [List.mem_cons, List.mem_singleton, not_or] at h
  obtain ⟨h1, h2, h3, h4, -⟩ := h
  simp [updateFormForPersona, h1, h2, h3, h4]

/-- Witness for C7: `general` lies outside the persona set and leaves the
default form unchanged. -/
theorem C7_witness :
    ("general" ∉ (["farmer", "fisher", "tourist", "driver"] : List String)) ∧
    updateFormForPersona "general" resetFormToDefault = resetFormToDefault :=
  ⟨by decide,
    (C7_personas_map_to_fixed_presets resetFormToDefault).2.2.2.2 "general" (by decide)⟩

/-- C10: `showSuggestions` renders at most 8 entries — exactly the first 8
of the list, in order, whenever the list is non-empty (so in particular
when it is longer than 8) — and an empty list renders no entries and hides
the container. -/
theorem C10_at_most_eight_suggestions (rawInput : String) (suggestions : List City) :
    (showSuggestions rawInput suggestions).entries.length ≤ 8 ∧
    (suggestions ≠ [] →
      (showSuggestions rawInput suggestions).entries =
        (suggestions.take 8).map (renderSuggestion rawInput)) ∧
    (suggestions = [] →
      (showSuggestions rawInput suggestions).entries = [] ∧
      (showSuggestions rawInput suggestions).visible = false) := by
  unfold showSuggestions
  by_cases h : suggestions.length = 0
  · simp [h, List.length_eq_zero.mp h]
  · have hne : suggestions ≠ [] := by
      simpa [← List.length_eq_zero] using h
    refine ⟨?_, fun _ => by simp [h], fun habs => absurd habs hne⟩
    simp only [h, if_false, List.length_map, List.length_take]
    omega

/-- Witness for C10: the static city list is non-empty (longer than 8) and
renders exactly its first 8 entries. -/
theorem C10_witness :
    (cities ≠ [] ∧ 8 < cities.length) ∧
    (showSuggestions "ca" cities).entries = (cities.take 8).map (renderSuggestion "ca") :=
  ⟨⟨by decide, by decide⟩, (C10_at_most_eight_suggestions "ca" cities).2.1 (by decide)⟩

/-- C6: when the (trimmed) location text input matches the coordinate
pattern `lat, lng`, a marker is placed at those coordinates and the map
recentred on them if and only if the latitude is in `[-90, 90]` and the
longitude is in `[-180, 180]`; an out-of-range coordinate input places no
marker and triggers no map move. -/
theorem C6_coord_input_range_check (raw : String) (lat lng : ℚ)
    (h : coordMatch (jsTrim raw) = some (lat, lng)) :
    (((locationInputHandler raw).markerPlaced = some (lat, lng) ∧
      (locationInputHandler raw).mapMovedTo = some ((lat, lng), 10)) ↔
      (-90 ≤ lat ∧ lat ≤ 90 ∧ -180 ≤ lng ∧ lng ≤ 180)) ∧
    (¬(-90 ≤ lat ∧ lat ≤ 90 ∧ -180 ≤ lng ∧ lng ≤ 180) →
      (locationInputHandler raw).markerPlaced = none ∧
      (locationInputHandler raw).mapMovedTo = none) := by
  simp only [locationInputHandler, h]
  by_cases hr : -90 ≤ lat ∧ lat ≤ 90 ∧ -180 ≤ lng ∧ lng ≤ 180
  · simp [hr]
  · simp [hr]

/-- Witness for C6: the concrete input `"45.5, 100"` parses to
`(45.5, 100)`, which is in range, and the handler places the marker
there. -/
theorem C6_witness :
    coordMatch (jsTrim "45.5, 100") = some ((91/2 : ℚ), (100 : ℚ)) ∧
    (locationInputHandler "45.5, 100").markerPlaced = some ((91/2 : ℚ), (100 : ℚ)) := by
  have e1 : jsTrim "45.5, 100" = "45.5, 100" := by decide
  have h2 : coordMatch "45.5, 100" =
      some ((digitsToNat ['4', '5'] : ℚ) + (digitsToNat ['5'] : ℚ) / 10 ^ 1,
        (digitsToNat ['1', '0', '0'] : ℚ) + (digitsToNat ([] : List Char) : ℚ) / 10 ^ 0) :=
    rfl
  have d1 : digitsToNat ['4', '5'] = 45 := by decide
  have d2 : digitsToNat ['5'] = 5 := by decide
  have d3 : digitsToNat ['1', '0', '0'] = 100 := by decide
  have d4 : digitsToNat ([] : List Char) = 0 := rfl
  have h : coordMatch (jsTrim "45.5, 100") = some ((91/2 : ℚ), (100 : ℚ)) := by
    rw [e1, h2, d1, d2, d3, d4]
    simp only [Option.some.injEq, Prod.mk.injEq]
    norm_num
  exact ⟨h, ((C6_coord_input_range_check "45.5, 100" _ _ h).1.mpr (by norm_num)).1⟩

/-- Closed form of the `i`-th per-year value pushed by the
`createTrendChart` loop. -/
theorem createTrendChartData_get? (p : ℚ) (r : ℕ → ℚ) (i : ℕ) (hi : i < 10) :
    (createTrendChartData p r).probabilities.get? i =
      some (clamp01 (p + (r i - 0.5) * 0.3) * 100) := by
  simp only [createTrendChartData, List.get?_eq_getElem?, List.getElem?_map,
    List.getElem?_range hi, Option.map_some']

/-- C3 counterexample: two renderings of the same API result (probability
one half) with different `Math.random()` draws produce different per-year
values (35% versus 50% in year 2015), so the rendered trend series is not
a function of the result alone. -/
theorem C3_counterexample :
    createTrendChartData (1/2) (fun _ => 0) ≠
      createTrendChartData (1/2) (fun _ => 1/2) := by
  intro h
  have h1 := createTrendChartData_get? (1/2) (fun _ => 0) 0 (by norm_num)
  have h2 := createTrendChartData_get? (1/2) (fun _ => 1/2) 0 (by norm_num)
  rw [h] at h1
  have h3 := Option.some.inj (h1.symm.trans h2)
  norm_num [clamp01] at h3

/-- C3 (amended): the rendered trend series is a pure function of the API
result's probability and the rendering's ten `Math.random()` draws: the
years are 2015–2024, the `i`-th value is
`clamp(p + (u_i - 0.5)·0.3, 0, 1)·100` for that rendering's draw `u_i`,
and two renderings that agree on the first ten draws produce identical
per-year values (two renderings with different draws can differ). -/
theorem C3_trend_series_of_result_and_draws (p : ℚ) (randoms : ℕ → ℚ) :
    (createTrendChartData p randoms).years =
      [2015, 2016, 2017, 2018, 2019, 2020, 2021, 2022, 2023, 2024] ∧
    (∀ i : ℕ, i < 10 →
      (createTrendChartData p randoms).probabilities.get? i =
        some (clamp01 (p + (randoms i - 0.5) * 0.3) * 100)) ∧
    (∀ randoms2 : ℕ → ℚ, (∀ i : ℕ, i < 10 → randoms i = randoms2 i) →
      createTrendChartData p randoms = createTrendChartData p randoms2) := by
  refine ⟨rfl, fun i hi => createTrendChartData_get? p randoms i hi, ?_⟩
  · intro r2 hr
    have hmap : (List.range 10).map (fun i => clamp01 (p + (randoms i - 0.5) * 0.3) * 100)
        = (List.range 10).map (fun i => clamp01 (p + (r2 i - 0.5) * 0.3) * 100) :=
      List.map_congr_left fun a ha => by rw [hr a (List.mem_range.mp ha)]
    simp [createTrendChartData, hmap]

/-- Witness for C3: at probability one half with all draws zero, the
fourth year's value is `clamp(0.5 - 0.15, 0, 1)·100 = 35`. -/
theorem C3_witness :
    (3 : ℕ) < 10 ∧
    (createTrendChartData (1/2) (fun _ => 0)).probabilities.get? 3 =
      some (clamp01 ((1/2 : ℚ) + (0 - 0.5) * 0.3) * 100) :=
  ⟨by norm_num,
    (C3_trend_series_of_result_and_draws (1/2) (fun _ => 0)).2.1 3 (by norm_num)⟩

/-- Every branch of the main script's fetch response keeps the issued
request. -/
theorem respondToFetch_snd (s : RunInputs) (lt : String) (la lo : ℚ)
    (req : Request) (res : FetchResult) :
    (respondToFetch s lt la lo req res).2 = some req := by
  cases res <;> rfl

/-- A failed fetch makes the main script render an error message and never
the result card. -/
theorem respondToFetch_failure (s : RunInputs) (lt : String) (la lo : ℚ)
    (req : Request) (res : FetchResult) (h : res.isFailure = true) :
    (∃ msg, (respondToFetch s lt la lo req res).1 = RunOutput.errorMessage msg) ∧
    ∀ view, (respondToFetch s lt la lo req res).1 ≠ RunOutput.success view := by
  cases res with
  | ok data => simp [FetchResult.isFailure] at h
  | httpError detail =>
    exact ⟨⟨_, rfl⟩, by intro view h2; simp [respondToFetch] at h2⟩
  | networkError msg =>
    exact ⟨⟨_, rfl⟩, by intro view h2; simp [respondToFetch] at h2⟩

/-- Every branch of the `app.js` fetch response keeps the issued
request. -/
theorem appJsRespond_snd (req : Request) (res : FetchResult) :
    (appJsRespond req res).2 = some req := by
  cases res <;> rfl

/-- A failed fetch makes `app.js` render an error text and never the
result line. -/
theorem appJsRespond_failure (req : Request) (res : FetchResult)
    (h : res.isFailure = true) :
    (∃ msg, (appJsRespond req res).1 = AppJsOutput.text ("Error: " ++ msg)) ∧
    ∀ p n cl ch m, (appJsRespond req res).1 ≠ AppJsOutput.resultHtml p n cl ch m := by
  cases res with
  | ok data => simp [FetchResult.isFailure] at h
  | httpError detail =>
    exact ⟨⟨failureMessage detail, rfl⟩,
      by intro p n cl ch m h2; simp [appJsRespond] at h2⟩
  | networkError msg =>
    exact ⟨⟨msg, rfl⟩, by intro p n cl ch m h2; simp [appJsRespond] at h2⟩

/-- C1: in both frontends, for every probability request whose API call
fails (non-OK HTTP response or thrown network error), the result view
displays an error message and no probability value — a failed request is
never rendered as the numeric result card. -/
theorem C1_failed_request_shows_error_not_probability :
    (∀ (s : RunInputs) (fetch : Request → FetchResult) (r : Request),
      (runClick s fetch).2 = some r → (fetch r).isFailure = true →
      (∃ msg, (runClick s fetch).1 = RunOutput.errorMessage msg) ∧
      ∀ view, (runClick s fetch).1 ≠ RunOutput.success view) ∧
    (∀ (marker : Option (ℚ × ℚ)) (varKey date threshold windowDays : String)
      (comparison : Comparison) (fetch : Request → FetchResult) (r : Request),
      (appJsRunClick marker varKey date threshold comparison windowDays fetch).2 = some r →
      (fetch r).isFailure = true →
      (∃ msg, (appJsRunClick marker varKey date threshold comparison windowDays fetch).1 =
          AppJsOutput.text ("Error: " ++ msg)) ∧
      ∀ p n cl ch m,
        (appJsRunClick marker varKey date threshold comparison windowDays fetch).1 ≠
          AppJsOutput.resultHtml p n cl ch m) := by
  constructor
  · intro s fetch r hreq hfail
    unfold runClick at hreq ⊢
    cases hsel : selectedCoords s.marker s.selectedArea with
    | none => rw [hsel] at hreq; simp at hreq
    | some t =>
      obtain ⟨latRaw, lonRaw, ltype⟩ := t
      rw [hsel] at hreq
      dsimp only at hreq ⊢
      split_ifs at hreq ⊢
      rw [respondToFetch_snd] at hreq
      obtain rfl := Option.some.inj hreq
      exact respondToFetch_failure _ _ _ _ _ _ hfail
  · intro marker varKey date threshold windowDays comparison fetch r hreq hfail
    unfold appJsRunClick at hreq ⊢
    cases marker with
    | none => simp at hreq
    | some c =>
      obtain ⟨la, ln⟩ := c
      dsimp only at hreq ⊢
      split_ifs at hreq ⊢
      rw [appJsRespond_snd] at hreq
      obtain rfl := Option.some.inj hreq
      exact appJsRespond_failure _ _ hfail

/-- Witness for C1: the demo form with a fetch oracle that always answers
a 404 HTTP error issues a request, the answer is a failure, and the main
frontend shows an error message and no result card. -/
theorem C1_witness :
    ∃ r : Request,
      (runClick demoInputs (fun _ => FetchResult.httpError (some "404: no data"))).2 =
        some r ∧
      (FetchResult.httpError (some "404: no data")).isFailure = true ∧
      (∃ msg, (runClick demoInputs
          (fun _ => FetchResult.httpError (some "404: no data"))).1 =
        RunOutput.errorMessage msg) ∧
      ∀ view, (runClick demoInputs
          (fun _ => FetchResult.httpError (some "404: no data"))).1 ≠
        RunOutput.success view := by
  have h30 : toFixedQ 4 (30 : ℚ) = 30 := by rw [toFixedQ, round_eq]; norm_num
  have h31 : toFixedQ 4 (31 : ℚ) = 31 := by rw [toFixedQ, round_eq]; norm_num
  have hreq : (runClick demoInputs
      (fun _ => FetchResult.httpError (some "404: no data"))).2 =
      some { lat := toFixedQ 4 30
             lon := toFixedQ 4 31
             varKey := "T2M_MAX"
             targetDate := "2025-01-01"
             threshold := "32"
             comparison := Comparison.gt
             windowDays := "15" } := by
    have hsel : selectedCoords demoInputs.marker demoInputs.selectedArea =
        some (30, 31, "point") := rfl
    unfold runClick
    rw [hsel]
    dsimp only
    rw [if_neg, if_neg, if_neg, if_neg]
    · exact respondToFetch_snd _ _ _ _ _ _
    · decide
    · decide
    · rw [h31]; norm_num
    · rw [h30]; norm_num
  obtain ⟨hmsg, hview⟩ :=
    C1_failed_request_shows_error_not_probability.1 demoInputs
      (fun _ => FetchResult.httpError (some "404: no data")) _ hreq rfl
  exact ⟨_, hreq, rfl, hmsg, hview⟩

/-- C2 (amended): the data-source and method lines of the probability view
reproduce the strings carried in the API result verbatim whenever the
result carries a source list and a non-empty method string; an absent
source list, or an absent or empty method string, is replaced by a fixed
frontend default. -/
theorem C2_provenance_strings_verbatim (s : RunInputs) (locationType : String)
    (lat lon : ℚ) (data : ApiData) (l : List String) (m : String)
    (hs : data.source = some l) (hm : data.method = some m) (hm0 : m ≠ "") :
    (renderResult s locationType lat lon data).sourceText = joinComma l ∧
    (renderResult s locationType lat lon data).methodText = m := by
  simp [renderResult, hs, hm, hm0]

/-- C2 counterexample: a response carrying the empty string as its
`method` is rendered with the frontend default method line instead of the
carried string, and a response without a `source` array is rendered with
the frontend default source line — so the provenance strings are not
reproduced verbatim for every response. -/
theorem C2_counterexample :
    ({ demoData with method := some "" } : ApiData).method = some "" ∧
    (renderResult demoInputs "point" 30 31
      { demoData with method := some "" }).methodText = defaultMethodText ∧
    defaultMethodText ≠ "" ∧
    (renderResult demoInputs "point" 30 31
      { demoData with source := none }).sourceText = defaultSourceText := by
  refine ⟨rfl, ?_, by decide, ?_⟩
  · simp [renderResult]
  · simp [renderResult]

/-- Witness for C2: the demo response carries a source list and a
non-empty method string, and both are rendered verbatim. -/
theorem C2_witness :
    demoData.source = some ["NASA POWER (MERRA-2 derived)"] ∧
    demoData.method = some "DOY ±15d; binomial proportion (Wilson 95% CI)" ∧
    ("DOY ±15d; binomial proportion (Wilson 95% CI)" : String) ≠ "" ∧
    (renderResult demoInputs "point" 30 31 demoData).sourceText =
      joinComma ["NASA POWER (MERRA-2 derived)"] ∧
    (renderResult demoInputs "point" 30 31 demoData).methodText =
      "DOY ±15d; binomial proportion (Wilson 95% CI)" := by
  refine ⟨rfl, rfl, by decide, ?_, ?_⟩
  · exact (C2_provenance_strings_verbatim demoInputs "point" 30 31 demoData _ _
      rfl rfl (by decide)).1
  · exact (C2_provenance_strings_verbatim demoInputs "point" 30 31 demoData _ _
      rfl rfl (by decide)).2

/-- C4 (amended): for every run activation with a location selected, if
the latitude as submitted (rounded to four decimal places by `toFixed(4)`)
lies outside [-90, 90], or the submitted longitude lies outside
[-180, 180], or the date or threshold field is empty, an error is
displayed and no API request is issued.  Validation applies to the rounded
values: a raw latitude within 0.00005 beyond the range rounds into range
and is submitted. -/
theorem C4_validation_blocks_request (s : RunInputs)
    (fetch : Request → FetchResult) (latRaw lonRaw : ℚ) (locationType : String)
    (hsel : selectedCoords s.marker s.selectedArea = some (latRaw, lonRaw, locationType))
    (hbad : toFixedQ 4 latRaw < -90 ∨ 90 < toFixedQ 4 latRaw ∨
      toFixedQ 4 lonRaw < -180 ∨ 180 < toFixedQ 4 lonRaw ∨
      s.date = "" ∨ s.threshold = "") :
    (∃ msg, (runClick s fetch).1 = RunOutput.errorMessage msg) ∧
    (runClick s fetch).2 = none := by
  unfold runClick
  rw [hsel]
  dsimp only
  split_ifs with h1 h2 h3 h4
  · exact ⟨⟨invalidLatMsg, rfl⟩, rfl⟩
  · exact ⟨⟨invalidLonMsg, rfl⟩, rfl⟩
  · exact ⟨⟨noDateMsg, rfl⟩, rfl⟩
  · exact ⟨⟨noThresholdMsg, rfl⟩, rfl⟩
  · exfalso
    rcases hbad with h | h | h | h | h | h
    · exact h1 (Or.inl h)
    · exact h1 (Or.inr h)
    · exact h2 (Or.inl h)
    · exact h2 (Or.inr h)
    · exact h3 h
    · exact h4 h

/-- Witness for C4: a marker at raw latitude 91 (which still rounds to 91,
outside the range) blocks the request and shows an error. -/
theorem C4_witness :
    (90 : ℚ) < toFixedQ 4 91 ∧
    (∃ msg, (runClick { demoInputs with marker := some ((91 : ℚ), 0) }
        (fun _ => FetchResult.networkError "offline")).1 = RunOutput.errorMessage msg) ∧
    (runClick { demoInputs with marker := some ((91 : ℚ), 0) }
        (fun _ => FetchResult.networkError "offline")).2 = none := by
  have ht : toFixedQ 4 (91 : ℚ) = 91 := by rw [toFixedQ, round_eq]; norm_num
  have happ := C4_validation_blocks_request
    { demoInputs with marker := some ((91 : ℚ), 0) }
    (fun _ => FetchResult.networkError "offline") 91 0 "point" rfl
    (Or.inr (Or.inl (by rw [ht]; norm_num)))
  exact ⟨by rw [ht]; norm_num, happ.1, happ.2⟩

/-- C4 counterexample: with the marker at raw latitude 90.00004 — outside
[-90, 90] — and valid date and threshold, `toFixed(4)` rounds the
submitted latitude to 90, validation passes, and the API request IS issued
(and a success response renders the result card), contradicting the claim
for the raw selected latitude. -/
theorem C4_counterexample :
    (90 : ℚ) < 9000004/100000 ∧
    (runClick { demoInputs with marker := some ((9000004/100000 : ℚ), 0) }
        (fun _ => FetchResult.ok demoData)).2 ≠ none ∧
    ∃ view, (runClick { demoInputs with marker := some ((9000004/100000 : ℚ), 0) }
        (fun _ => FetchResult.ok demoData)).1 = RunOutput.success view := by
  have hlat : toFixedQ 4 (9000004/100000 : ℚ) = 90 := by
    rw [toFixedQ, round_eq]; norm_num
  have hlon : toFixedQ 4 (0 : ℚ) = 0 := by rw [toFixedQ, round_eq]; norm_num
  have hsel : selectedCoords ({ demoInputs with
      marker := some ((9000004/100000 : ℚ), 0) } : RunInputs).marker
      ({ demoInputs with marker := some ((9000004/100000 : ℚ), 0) } : RunInputs).selectedArea =
      some (9000004/100000, 0, "point") := rfl
  refine ⟨by norm_num, ?_, ?_⟩ <;>
  · unfold runClick
    rw [hsel]
    dsimp only
    rw [if_neg, if_neg, if_neg, if_neg]
    · simp [respondToFetch]
    · decide
    · decide
    · rw [hlon]; norm_num
    · rw [hlat]; norm_num

/-- C9 counterexample: a reachable state holds both a marker and a
selected area.  Trace: toggle to area-selection mode (clears the marker),
type the in-range coordinates `10, 10` into the location input (places a
marker; the input handler does not check the mode), then drag-select an
area of more than 100 m (mousedown on the container, mousemove, mouseup):
the mouseup handler sets the selected area without clearing the marker. -/
theorem C9_counterexample :
    (runEvents distSample
      [UIEvent.toggleSelectionMode, UIEvent.coordInput 10 10,
        UIEvent.mouseDown 20 20 true false, UIEvent.mouseMove 21 21,
        UIEvent.mouseUp 21 21]).marker = some (10, 10) ∧
    (runEvents distSample
      [UIEvent.toggleSelectionMode, UIEvent.coordInput 10 10,
        UIEvent.mouseDown 20 20 true false, UIEvent.mouseMove 21 21,
        UIEvent.mouseUp 21 21]).selectedArea = some ⟨(20, 20), (21, 21)⟩ := by
  decide

/-- C9 (amended): placing a marker (map click in point mode, in-range
coordinate input, or city selection) clears any area selection, and
switching from point mode to area-selection mode removes any existing
marker; but completing an area drag does not clear an existing marker, so
mutual exclusion of marker and selected area is not an invariant: a state
with both set is reachable. -/
theorem C9_marker_area_interaction (dist : ℚ × ℚ → ℚ × ℚ → ℚ) (s : UIState)
    (lat lng : ℚ) (c : City) :
    (step dist s (UIEvent.citySelect c)).selectedArea = none ∧
    (step dist s (UIEvent.citySelect c)).marker = some (c.lat, c.lng) ∧
    (¬s.areaSelectionMode = true →
      (step dist s (UIEvent.mapClick lat lng)).marker = some (lat, lng) ∧
      (step dist s (UIEvent.mapClick lat lng)).selectedArea = none) ∧
    ((-90 ≤ lat ∧ lat ≤ 90 ∧ -180 ≤ lng ∧ lng ≤ 180) →
      (step dist s (UIEvent.coordInput lat lng)).marker = some (lat, lng) ∧
      (step dist s (UIEvent.coordInput lat lng)).selectedArea = none) ∧
    (s.selectionMode = "point" →
      (step dist s UIEvent.toggleSelectionMode).marker = none) ∧
    ∃ es : List UIEvent,
      (runEvents distSample es).marker ≠ none ∧
      (runEvents distSample es).selectedArea ≠ none := by
  refine ⟨?_, ?_, ?_, ?_, ?_, ?_⟩
  · simp [step, addMarker, clearAreaSelection]
  · simp [step, addMarker, clearAreaSelection]
  · intro h
    simp only [Bool.not_eq_true] at h
    constructor <;> simp [step, h, addMarker, clearAreaSelection]
  · intro h
    constructor <;> simp [step, h, addMarker, clearAreaSelection]
  · intro h
    simp [step, h]
  · refine ⟨[UIEvent.toggleSelectionMode, UIEvent.coordInput 10 10,
      UIEvent.mouseDown 20 20 true false, UIEvent.mouseMove 21 21,
      UIEvent.mouseUp 21 21], by decide, by decide⟩

/-- Witness for C9: from the initial state (point mode), a map click
places the marker with no selected area, and toggling to area mode clears
the marker. -/
theorem C9_witness :
    (initState.areaSelectionMode = false ∧ initState.selectionMode = "point") ∧
    (step distSample initState (UIEvent.mapClick 5 6)).marker = some (5, 6) ∧
    (step distSample initState (UIEvent.mapClick 5 6)).selectedArea = none ∧
    (step distSample initState UIEvent.toggleSelectionMode).marker = none := by
  have h := C9_marker_area_interaction distSample initState 5 6
    ⟨"Cairo", "Egypt", 30.0444, 31.2357⟩
  have hclick := h.2.2.1 (by decide)
  exact ⟨⟨rfl, rfl⟩, hclick.1, hclick.2, h.2.2.2.2.1 rfl⟩

/-- The z value is positive. -/
theorem z95_pos : (0 : ℝ) < (z95 : ℝ) := by norm_num [z95]

/-- The squared z value is positive. -/
theorem z95_sq_pos : (0 : ℝ) < (z95 : ℝ) ^ 2 := pow_pos z95_pos 2

/-- Projection equation for the Wilson lower bound. -/
theorem wilson_ci_low_eq (n k : ℕ) :
    (wilson n k).ci_low = clamp01R (wilsonCenter n k - wilsonHalfWidth n k) := rfl

/-- Projection equation for the Wilson upper bound. -/
theorem wilson_ci_high_eq (n k : ℕ) :
    (wilson n k).ci_high = clamp01R (wilsonCenter n k + wilsonHalfWidth n k) := rfl

/-- Projection equation for the Wilson point estimate. -/
theorem wilson_point_eq (n k : ℕ) :
    (wilson n k).point_estimate = (k : ℝ) / (n : ℝ) := rfl

/-- Clamping cannot exceed an upper bound that the raw value respects. -/
theorem clamp01R_le (x y : ℝ) (hy0 : 0 ≤ y) (hxy : x ≤ y) : clamp01R x ≤ y :=
  max_le hy0 (le_trans (min_le_right _ _) hxy)

/-- Clamping cannot fall below a lower bound in `[0, 1]` that the raw
value respects. -/
theorem le_clamp01R (x y : ℝ) (hy1 : y ≤ 1) (hxy : y ≤ x) : y ≤ clamp01R x :=
  le_trans (le_min hy1 hxy) (le_max_right _ _)

/-- The clamped value is nonnegative. -/
theorem clamp01R_nonneg (x : ℝ) : 0 ≤ clamp01R x := le_max_left _ _

/-- The clamped value is at most one. -/
theorem clamp01R_le_one (x : ℝ) : clamp01R x ≤ 1 :=
  max_le zero_le_one (min_le_left _ _)

/-- Clamping is the identity on `[0, 1]`. -/
theorem clamp01R_of_mem (x : ℝ) (h0 : 0 ≤ x) (h1 : x ≤ 1) : clamp01R x = x := by
  rw [clamp01R, min_eq_right h1, max_eq_right h0]

/-- A positive value clamps to a positive value. -/
theorem clamp01R_pos (x : ℝ) (hx : 0 < x) : 0 < clamp01R x :=
  lt_of_lt_of_le (lt_min one_pos hx) (le_max_right _ _)

/-- Core Wilson inequality: the distance from the point estimate to the
interval centre, scaled by the common denominator, is dominated by the
numerator of the half width. -/
theorem wilson_key_ineq (N z p : ℝ) (hN : 0 < N) (hz : 0 < z)
    (hp0 : 0 ≤ p) (hp1 : p ≤ 1) :
    |z ^ 2 / N * (1 / 2 - p)| ≤ z * Real.sqrt (p * (1 - p) / N + z ^ 2 / (4 * N ^ 2)) := by
  have hq : 0 ≤ p * (1 - p) := mul_nonneg hp0 (by linarith)
  have h2 : z * Real.sqrt (p * (1 - p) / N + z ^ 2 / (4 * N ^ 2)) =
      Real.sqrt (z ^ 2 * (p * (1 - p) / N + z ^ 2 / (4 * N ^ 2))) := by
    rw [Real.sqrt_mul (sq_nonneg z), Real.sqrt_sq hz.le]
  rw [h2, ← Real.sqrt_sq_eq_abs]
  apply Real.sqrt_le_sqrt
  have expand : z ^ 2 * (p * (1 - p) / N + z ^ 2 / (4 * N ^ 2)) -
      (z ^ 2 / N * (1 / 2 - p)) ^ 2 =
      z ^ 2 * (p * (1 - p)) * (N + z ^ 2) / N ^ 2 := by
    field_simp
    ring
  have pos : 0 ≤ z ^ 2 * (p * (1 - p)) * (N + z ^ 2) / N ^ 2 :=
    div_nonneg (mul_nonneg (mul_nonneg (sq_nonneg z) hq) (by positivity)) (sq_nonneg N)
  linarith

/-- The Wilson centre lies within a half width of the point estimate. -/
theorem wilson_center_dist (n k : ℕ) (hn : 0 < n) (hk : k ≤ n) :
    |wilsonCenter n k - (k : ℝ) / (n : ℝ)| ≤ wilsonHalfWidth n k := by
  have hN : (0 : ℝ) < (n : ℝ) := by exact_mod_cast hn
  have hp0 : (0 : ℝ) ≤ (k : ℝ) / (n : ℝ) := by positivity
  have hp1 : (k : ℝ) / (n : ℝ) ≤ 1 := by
    rw [div_le_one hN]
    exact_mod_cast hk
  have hD : (0 : ℝ) < 1 + (z95 : ℝ) ^ 2 / (n : ℝ) := by positivity
  have hcp : wilsonCenter n k - (k : ℝ) / (n : ℝ) =
      ((z95 : ℝ) ^ 2 / (n : ℝ) * (1 / 2 - (k : ℝ) / (n : ℝ))) /
        (1 + (z95 : ℝ) ^ 2 / (n : ℝ)) := by
    rw [wilsonCenter]
    field_simp
    ring
  rw [hcp, wilsonHalfWidth, abs_div, abs_of_pos hD]
  gcongr
  exact wilson_key_ineq (n : ℝ) (z95 : ℝ) ((k : ℝ) / (n : ℝ)) hN z95_pos hp0 hp1

/-- At full exceedance (`k = n`) the half width collapses to the
rational expression `z²/(2n) / (1 + z²/n)`. -/
theorem wilsonHalfWidth_full (n : ℕ) (hn : 0 < n) :
    wilsonHalfWidth n n = (z95 : ℝ) ^ 2 / (2 * n) / (1 + (z95 : ℝ) ^ 2 / n) := by
  have hN : (0 : ℝ) < (n : ℝ) := by exact_mod_cast hn
  have hz : (z95 : ℝ) ≠ 0 := z95_pos.ne'
  have hD : (0 : ℝ) < 1 + (z95 : ℝ) ^ 2 / (n : ℝ) := by positivity
  rw [wilsonHalfWidth, div_self hN.ne']
  have harg : (1 : ℝ) * (1 - 1) / (n : ℝ) + (z95 : ℝ) ^ 2 / (4 * (n : ℝ) ^ 2) =
      ((z95 : ℝ) / (2 * n)) ^ 2 := by
    field_simp [hN.ne']
    ring
  have hzn : (0 : ℝ) ≤ (z95 : ℝ) / (2 * n) := by
    apply div_nonneg z95_pos.le
    positivity
  rw [harg, Real.sqrt_sq hzn]
  field_simp [hN.ne', hz, hD.ne']
  ring

/-- At full exceedance the upper Wilson bound is exactly one. -/
theorem wilson_full_ci_high (n : ℕ) (hn : 0 < n) : (wilson n n).ci_high = 1 := by
  have hN : (0 : ℝ) < (n : ℝ) := by exact_mod_cast hn
  have hD : (0 : ℝ) < 1 + (z95 : ℝ) ^ 2 / (n : ℝ) := by positivity
  have hsum : wilsonCenter n n + wilsonHalfWidth n n = 1 := by
    rw [wilsonCenter, wilsonHalfWidth_full n hn, div_self hN.ne']
    field_simp [hN.ne', hD.ne']
    ring
  rw [wilson_ci_high_eq, hsum, clamp01R_of_mem 1 zero_le_one le_rfl]

/-- At full exceedance the lower Wilson bound equals `1/(1 + z²/n)` and
lies strictly between zero and one. -/
theorem wilson_full_ci_low (n : ℕ) (hn : 0 < n) :
    (wilson n n).ci_low = 1 / (1 + (z95 : ℝ) ^ 2 / n) ∧
    0 < (wilson n n).ci_low ∧ (wilson n n).ci_low < 1 := by
  have hN : (0 : ℝ) < (n : ℝ) := by exact_mod_cast hn
  have hD : (0 : ℝ) < 1 + (z95 : ℝ) ^ 2 / (n : ℝ) := by positivity
  have hdiff : wilsonCenter n n - wilsonHalfWidth n n =
      1 / (1 + (z95 : ℝ) ^ 2 / n) := by
    rw [wilsonCenter, wilsonHalfWidth_full n hn, div_self hN.ne']
    field_simp [hN.ne', hD.ne']
    ring
  have h0 : (0 : ℝ) < 1 / (1 + (z95 : ℝ) ^ 2 / n) := by positivity
  have h1 : 1 / (1 + (z95 : ℝ) ^ 2 / n) < 1 := by
    rw [div_lt_one hD]
    have : (0 : ℝ) < (z95 : ℝ) ^ 2 / n := div_pos z95_sq_pos hN
    linarith
  have heq : (wilson n n).ci_low = 1 / (1 + (z95 : ℝ) ^ 2 / n) := by
    rw [wilson_ci_low_eq, hdiff, clamp01R_of_mem _ h0.le h1.le]
  exact ⟨heq, by rw [heq]; exact h0, by rw [heq]; exact h1⟩

/-- At zero exceedance (`k = 0`) the lower Wilson bound is zero and the
upper bound is positive (the interval does not collapse). -/
theorem wilson_zero_ci (n : ℕ) (hn : 0 < n) :
    (wilson n 0).ci_low = 0 ∧ 0 < (wilson n 0).ci_high := by
  have hN : (0 : ℝ) < (n : ℝ) := by exact_mod_cast hn
  have hD : (0 : ℝ) < 1 + (z95 : ℝ) ^ 2 / (n : ℝ) := by positivity
  have hz : (z95 : ℝ) ≠ 0 := z95_pos.ne'
  have hhw : wilsonHalfWidth n 0 =
      (z95 : ℝ) ^ 2 / (2 * n) / (1 + (z95 : ℝ) ^ 2 / n) := by
    rw [wilsonHalfWidth]
    have harg : ((0 : ℕ) : ℝ) / (n : ℝ) * (1 - ((0 : ℕ) : ℝ) / (n : ℝ)) / (n : ℝ) +
        (z95 : ℝ) ^ 2 / (4 * (n : ℝ) ^ 2) = ((z95 : ℝ) / (2 * n)) ^ 2 := by
      push_cast
      field_simp [hN.ne']
      ring
    rw [harg]
    have hzn : (0 : ℝ) ≤ (z95 : ℝ) / (2 * n) := by
      apply div_nonneg z95_pos.le
      positivity
    rw [Real.sqrt_sq hzn]
    field_simp [hN.ne', hz, hD.ne']
    ring
  have hc : wilsonCenter n 0 =
      (z95 : ℝ) ^ 2 / (2 * n) / (1 + (z95 : ℝ) ^ 2 / n) := by
    rw [wilsonCenter]
    push_cast
    field_simp [hN.ne', hD.ne']
  have hpos : (0 : ℝ) < (z95 : ℝ) ^ 2 / (2 * n) / (1 + (z95 : ℝ) ^ 2 / n) :=
    div_pos (div_pos z95_sq_pos (by positivity)) hD
  constructor
  · rw [wilson_ci_low_eq, hc, hhw, sub_self, clamp01R_of_mem 0 le_rfl zero_le_one]
  · rw [wilson_ci_high_eq, hc, hhw]
    exact clamp01R_pos _ (by linarith)

/-- C5 (amended): for all `n > 0` and `k ∈ [0, n]`, the Wilson interval
satisfies `ci_low ≤ p̂ ≤ ci_high` with both bounds in `[0, 1]`, and at the
edge cases it does not collapse to a point: at `k = 0` the bounds are
`0 < ci_high`, and at `k = n` the lower bound lies strictly inside
`(0, 1)` for every `n` while the upper bound equals exactly 1 — so the
interval touches 1 at `k = n` (it does not stay strictly inside `(0, 1)`,
for any `n`). -/
theorem C5_wilson_ci_bounds (n k : ℕ) (hn : 0 < n) (hk : k ≤ n) :
    ((wilson n k).ci_low ≤ (wilson n k).point_estimate ∧
      (wilson n k).point_estimate ≤ (wilson n k).ci_high) ∧
    (0 ≤ (wilson n k).ci_low ∧ (wilson n k).ci_low ≤ 1 ∧
      0 ≤ (wilson n k).ci_high ∧ (wilson n k).ci_high ≤ 1) ∧
    (k = 0 → (wilson n k).ci_low < (wilson n k).ci_high) ∧
    (k = n → (wilson n k).ci_low < (wilson n k).ci_high ∧
      0 < (wilson n k).ci_low ∧ (wilson n k).ci_low < 1 ∧
      (wilson n k).ci_high = 1) := by
  have hN : (0 : ℝ) < (n : ℝ) := by exact_mod_cast hn
  have hp0 : (0 : ℝ) ≤ (k : ℝ) / (n : ℝ) := by positivity
  have hp1 : (k : ℝ) / (n : ℝ) ≤ 1 := by
    rw [div_le_one hN]
    exact_mod_cast hk
  obtain ⟨hlo, hhi⟩ := abs_le.mp (wilson_center_dist n k hn hk)
  refine ⟨⟨?_, ?_⟩,
    ⟨clamp01R_nonneg _, clamp01R_le_one _, clamp01R_nonneg _, clamp01R_le_one _⟩,
    ?_, ?_⟩
  · rw [wilson_ci_low_eq, wilson_point_eq]
    exact clamp01R_le _ _ hp0 (by linarith)
  · rw [wilson_ci_high_eq, wilson_point_eq]
    exact le_clamp01R _ _ hp1 (by linarith)
  · rintro rfl
    obtain ⟨hl, hh⟩ := wilson_zero_ci n hn
    rw [hl]
    exact hh
  · rintro rfl
    obtain ⟨heq, h0, h1⟩ := wilson_full_ci_low k hn
    have hh := wilson_full_ci_high k hn
    exact ⟨by rw [hh]; exact h1, h0, h1, hh⟩

/-- C5 counterexample: at `n = 5`, `k = n` (full exceedance with a small
sample), the upper Wilson bound is exactly 1, so the interval does not
stay strictly inside `(0, 1)` at `k = n` even though `n` is small. -/
theorem C5_counterexample :
    (wilson 5 5).ci_high = 1 ∧ ¬((wilson 5 5).ci_high < 1) := by
  have h := wilson_full_ci_high 5 (by norm_num)
  exact ⟨h, by rw [h]; exact lt_irrefl 1⟩

/-- Witness for C5 at `n = 3`, `k = 2`: the hypotheses hold and the
ordering and range conclusions follow. -/
theorem C5_witness :
    ((0 : ℕ) < 3 ∧ (2 : ℕ) ≤ 3) ∧
    (wilson 3 2).ci_low ≤ (wilson 3 2).point_estimate ∧
    (wilson 3 2).point_estimate ≤ (wilson 3 2).ci_high ∧
    (wilson 3 2).ci_high ≤ 1 := by
  have h := C5_wilson_ci_bounds 3 2 (by norm_num) (by norm_num)
  exact ⟨⟨by norm_num, by norm_num⟩, h.1.1, h.1.2, h.2.1.2.2.2⟩

end Tempestra
